import Mathlib

/-!
Shallow embedding of the Vareon genome-browser utility layer
(`genome-api.ts` / `page.tsx`) in Lean 4.

Conventions of the embedding:
* TypeScript `number` fields holding genomic coordinates and timestamps are
  modelled as `Int` (they are integral in every code path of interest).
* JavaScript strings are Lean `String`s; the JS string operations used by the
  code (`includes`, `replace` with a string pattern, i.e. first occurrence
  only, `startsWith`, `toUpperCase`, `localeCompare` on plain ASCII names)
  are re-implemented over `List Char` so that they compute by kernel
  reduction.  `localeCompare` is modelled as code-point lexicographic
  comparison, which agrees with it on the ASCII chromosome names involved.
* `async` functions performing network calls are modelled as pure functions
  of the upstream response; every distinct upstream outcome (non-ok response,
  parsed body, thrown exception) is a constructor of an outcome type, so a
  theorem quantified over outcomes covers every code path including the
  `catch` branches.  Optional / possibly-`undefined` JS fields are `Option`s,
  and JS truthiness tests on them are modelled explicitly.
-/

namespace Vareon

/-- JS `s.includes(pat)` at the `List Char` level. -/
def hasSub (pat : List Char) : List Char → Bool
  | [] => pat.isEmpty
  | c :: t => pat.isPrefixOf (c :: t) || hasSub pat t

/-- JS `s.includes(pat)`. -/
def jsIncludes (s pat : String) : Bool := hasSub pat.data s.data

/-- Remove the first occurrence of `pat` (JS `s.replace(pat, "")` semantics:
only the first occurrence is replaced). -/
def removeFirst (pat : List Char) : List Char → List Char
  | [] => []
  | c :: t =>
    if pat.isPrefixOf (c :: t) then (c :: t).drop pat.length
    else c :: removeFirst pat t

/-- JS `s.replace(pat, "")`: removes only the first occurrence of `pat`. -/
def jsReplaceFirst (s pat : String) : String := ⟨removeFirst pat.data s.data⟩

/-- JS `s.startsWith(pat)`. -/
def jsStartsWith (s pat : String) : Bool := pat.data.isPrefixOf s.data

/-- JS `s.toUpperCase()` (ASCII-faithful). -/
def jsToUpper (s : String) : String := ⟨s.data.map Char.toUpper⟩

/-- JS truthiness of a possibly-`undefined` string field:
`undefined` and `""` are falsy, any non-empty string is truthy. -/
def jsTruthy : Option String → Bool
  | none => false
  | some s => s != ""

/-- JS regex test `/^\d+$/.test(s)`: non-empty and all decimal digits. -/
def isDigits (s : String) : Bool := !s.data.isEmpty && s.data.all Char.isDigit

/-- JS `Number(s)` restricted to all-digit strings (the only use site). -/
def jsNumber (s : String) : Nat :=
  s.data.foldl (fun n c => 10 * n + (c.toNat - 48)) 0

/-! ## Chromosome list (`getGenomeChromosomes`, genome-api.ts) -/

/-- Entry of the chromosome list (`ChromosomeData` in genome-api.ts). -/
structure ChromosomeData where
  name : String
  size : Int
deriving DecidableEq, Repr

/-- The filter applied while iterating the UCSC `chromosomes` record:
`if (chromId.includes("_") || chromId.includes("random") || chromId.includes("Un")) continue;`
so an entry is kept iff its name contains none of the three patterns. -/
def keepChromName (name : String) : Bool :=
  !(jsIncludes name "_") && !(jsIncludes name "random") && !(jsIncludes name "Un")

/-- The key the sort comparator works on: `a.name.replace("chr", "")`. -/
def chromKey (c : ChromosomeData) : String := jsReplaceFirst c.name "chr"

/-- The sort comparator of `getGenomeChromosomes`, read as a
"less-or-equal" Boolean relation (comparator result `≤ 0`):
numeric vs numeric compares `Number(anum) - Number(bnum)`,
a numeric name sorts before a non-numeric one (`return -1` / `return 1`),
and two non-numeric names fall back to `localeCompare`. -/
def chromCompareLe (a b : ChromosomeData) : Bool :=
  match isDigits (chromKey a), isDigits (chromKey b) with
  | true, true => jsNumber (chromKey a) ≤ jsNumber (chromKey b)
  | true, false => true
  | false, true => false
  | false, false => chromKey a ≤ chromKey b

/-- `getGenomeChromosomes`, as a function of the parsed `chromosomes`
record (an association list of name/size pairs in object-iteration order):
filter out alternate/unplaced/unlocalized scaffolds, then sort with the
comparator above (JS `Array.prototype.sort` realized as a merge sort). -/
def getGenomeChromosomes (chroms : List (String × Int)) : List ChromosomeData :=
  ((chroms.filter fun p => keepChromName p.1).map
    fun p => (⟨p.1, p.2⟩ : ChromosomeData)).mergeSort chromCompareLe

/-- The ordering the spec describes for the displayed list: numerically
named chromosomes first, ascending by numeric value, followed by the
non-numeric names in lexical order. -/
def displayOrder (a b : ChromosomeData) : Prop :=
  match isDigits (chromKey a), isDigits (chromKey b) with
  | true, true => jsNumber (chromKey a) ≤ jsNumber (chromKey b)
  | true, false => True
  | false, true => False
  | false, false => chromKey a ≤ chromKey b

/-! ## Result cache (`page.tsx`): TTL store evaluated lazily at read time -/

/-- `CACHE_TIMEOUT = 10 * 60 * 1000` milliseconds (ten minutes). -/
def CACHE_TIMEOUT : Int := 10 * 60 * 1000

/-- `isCacheValid(timestamp)`: `Date.now() - timestamp < CACHE_TIMEOUT`,
with the current time passed explicitly. -/
def isCacheValid (now timestamp : Int) : Bool := now - timestamp < CACHE_TIMEOUT

/-- `setCachedData`: stores the value paired with the insertion time
(`{ data, timestamp: Date.now() }`). -/
def setCachedData {α : Type} (now : Int) (d : α) : Option (α × Int) :=
  some (d, now)

/-- `getCachedData`, restricted to one key: given the current time and the
stored entry for the key (`none` when absent), returns the read result and
the entry as it remains in the store after the read (an expired entry is
removed at read time). -/
def getCachedData {α : Type} (now : Int) (entry : Option (α × Int)) :
    Option α × Option (α × Int) :=
  match entry with
  | none => (none, none)
  | some (d, ts) =>
    if isCacheValid now ts then (some d, some (d, ts)) else (none, none)

/-! ## Gene details (`fetchGeneDetails`, genome-api.ts) -/

/-- One element of the NCBI `genomicinfo` array. -/
structure GenomicInfo where
  chrstart : Int
  chrstop : Int
deriving DecidableEq, Repr

/-- The per-gene detail record `detailData.result[geneId]`; `genomicinfo`
may be absent (`none`) or present with any length. -/
structure GeneDetail where
  genomicinfo : Option (List GenomicInfo)
deriving DecidableEq, Repr

/-- `GeneBounds` (field order as in the TS interface: `max` then `min`). -/
structure GeneBounds where
  max : Int
  min : Int
deriving DecidableEq, Repr

/-- A `{start, end}` range; the TS field `end` is rendered `stop`. -/
structure GeneRange where
  start : Int
  stop : Int
deriving DecidableEq, Repr

/-- Upstream outcome of the gene-detail request: non-ok HTTP response,
parsed body with `result[geneId]` present or absent, or a thrown
exception (network failure / JSON parse failure), which reaches the
`catch` branch. -/
inductive DetailOutcome
  | notOk
  | ok (detail : Option GeneDetail)
  | exn
deriving DecidableEq, Repr

/-- The triple returned by `fetchGeneDetails`. -/
structure DetailResult where
  geneDetails : Option GeneDetail
  geneBounds : Option GeneBounds
  initialRange : Option GeneRange
deriving DecidableEq, Repr

/-- The all-null result `{ geneDetails: null, geneBounds: null, initialRange: null }`. -/
def nullDetailResult : DetailResult := ⟨none, none, none⟩

/-- `fetchGeneDetails` as a function of the upstream outcome.  On a non-ok
response, a missing detail record, a missing/empty `genomicinfo`, or a
thrown exception it returns the all-null triple; otherwise it takes the
first `genomicinfo` record, computes `min`/`max` of `chrstart`/`chrstop`,
and derives the initial range (`min + 10000` cap for genes longer than
10000 bases). -/
def fetchGeneDetails (outcome : DetailOutcome) : DetailResult :=
  match outcome with
  | .notOk => nullDetailResult
  | .exn => nullDetailResult
  | .ok none => nullDetailResult
  | .ok (some detail) =>
    match detail.genomicinfo with
    | some (info :: _) =>
      let minPos := min info.chrstart info.chrstop
      let maxPos := max info.chrstart info.chrstop
      let geneSize := maxPos - minPos
      let seqStart := minPos
      let seqEnd := if geneSize > 10000 then minPos + 10000 else maxPos
      { geneDetails := some detail
        geneBounds := some ⟨maxPos, minPos⟩
        initialRange := some ⟨seqStart, seqEnd⟩ }
    | _ => nullDetailResult

/-! ## Sequence window (`fetchGeneSequence`, genome-api.ts) -/

/-- The query string parameters sent to the UCSC sequence endpoint. -/
structure SeqQuery where
  genome : String
  chrom : String
  apiStart : Int
  apiEnd : Int
deriving DecidableEq, Repr

/-- Parsed body of the sequence response: optional `error` and `dna` fields. -/
structure SeqResponse where
  error : Option String
  dna : Option String
deriving DecidableEq, Repr

/-- Upstream outcome of the sequence request: a parsed body, or a thrown
exception (network failure / JSON parse failure) reaching the `catch`. -/
inductive SeqOutcome
  | ok (resp : SeqResponse)
  | exn
deriving DecidableEq, Repr

/-- The value returned by `fetchGeneSequence`. -/
structure SeqResult where
  sequence : String
  actualRange : GeneRange
  error : Option String
deriving DecidableEq, Repr

/-- The query `fetchGeneSequence` issues: `chrom` is prefixed with `"chr"`
unless it already starts with it, `apiStart = start - 1`, `apiEnd = end`. -/
def buildSeqQuery (chrom : String) (start stop : Int) (genomeId : String) :
    SeqQuery :=
  let chromosome := if jsStartsWith chrom "chr" then chrom else "chr" ++ chrom
  ⟨genomeId, chromosome, start - 1, stop⟩

/-- `fetchGeneSequence` as a function of the upstream behaviour
(`upstream` maps the issued query to its outcome).  `if (data.error || !data.dna)`
takes the error branch, returning an empty sequence and `data.error`
verbatim; otherwise the `dna` field is uppercased and returned; a thrown
exception returns the fixed internal-error message.  Every branch returns
`actualRange = { start, end }`. -/
def fetchGeneSequence (chrom : String) (start stop : Int) (genomeId : String)
    (upstream : SeqQuery → SeqOutcome) : SeqResult :=
  match upstream (buildSeqQuery chrom start stop genomeId) with
  | .exn =>
    { sequence := ""
      actualRange := ⟨start, stop⟩
      error := some "Internal error in fetch gene sequence" }
  | .ok data =>
    if jsTruthy data.error || !jsTruthy data.dna then
      { sequence := "", actualRange := ⟨start, stop⟩, error := data.error }
    else
      { sequence := jsToUpper (data.dna.getD "")
        actualRange := ⟨start, stop⟩
        error := none }

/-! ## Theorems -/

/-- C1: for a gene whose first genomic-info record yields bounds `min` and
`max`, `fetchGeneDetails` derives the initial window with start `min` and
end `min + 10000` when `max - min > 10000` and `max` otherwise; in
particular a span of 15000 gives `[min, min + 10000]` and a span of 500
gives `[min, max]`. -/
theorem fetchGeneDetails_initial_window (cs ct : Int) (rest : List GenomicInfo) :
    (fetchGeneDetails (.ok (some ⟨some (⟨cs, ct⟩ :: rest)⟩))).initialRange =
      some ⟨min cs ct,
        if max cs ct - min cs ct > 10000 then min cs ct + 10000 else max cs ct⟩ ∧
    (fetchGeneDetails (.ok (some ⟨some [⟨100, 15100⟩]⟩))).initialRange =
      some ⟨100, 10100⟩ ∧
    (fetchGeneDetails (.ok (some ⟨some [⟨100, 600⟩]⟩))).initialRange =
      some ⟨100, 600⟩ :=
  ⟨rfl, by decide, by decide⟩

/-- C2: the query issued to the sequence service uses half-open 0-based
coordinates `apiStart = start - 1`, `apiEnd = end`; in particular the
1-based inclusive request `[1000, 2000]` issues the query `[999, 2000]`. -/
theorem fetchGeneSequence_halfOpen_query (chrom genomeId : String) (start stop : Int) :
    ((buildSeqQuery chrom start stop genomeId).apiStart = start - 1 ∧
      (buildSeqQuery chrom start stop genomeId).apiEnd = stop) ∧
    ((buildSeqQuery chrom 1000 2000 genomeId).apiStart = 999 ∧
      (buildSeqQuery chrom 1000 2000 genomeId).apiEnd = 2000) :=
  ⟨⟨rfl, rfl⟩, rfl, rfl⟩

/-- C5: bounds are computed as `min = min(start, stop)`,
`max = max(start, stop)` from the first genomic-info record, so the
returned bounds always satisfy `min ≤ max`. -/
theorem fetchGeneDetails_bounds_minmax (cs ct : Int) (rest : List GenomicInfo) :
    (fetchGeneDetails (.ok (some ⟨some (⟨cs, ct⟩ :: rest)⟩))).geneBounds =
      some ⟨max cs ct, min cs ct⟩ ∧ min cs ct ≤ max cs ct :=
  ⟨rfl, by omega⟩

/-- C7: a cache entry inserted at time `T` is returned, with the store left
unchanged, by any read strictly before `T + CACHE_TIMEOUT` (ten minutes in
milliseconds), and a read at or after `T + CACHE_TIMEOUT` returns absent and
evicts the entry at read time. -/
theorem getCachedData_ttl {α : Type} (v : α) (T now : Int) :
    (now < T + CACHE_TIMEOUT →
      getCachedData now (setCachedData T v) = (some v, some (v, T))) ∧
    (T + CACHE_TIMEOUT ≤ now →
      getCachedData now (setCachedData T v) = (none, none)) := by
  constructor
  · intro h
    simp only [CACHE_TIMEOUT] at h
    have hv : isCacheValid now T = true := by
      simp only [isCacheValid, CACHE_TIMEOUT, decide_eq_true_eq]
      omega
    simp [getCachedData, setCachedData, hv]
  · intro h
    simp only [CACHE_TIMEOUT] at h
    have hv : isCacheValid now T = false := by
      simp only [isCacheValid, CACHE_TIMEOUT, decide_eq_false_iff_not]
      omega
    simp [getCachedData, setCachedData, hv]

/-- Witness for C7: a value inserted at time 0 is readable at 599999 ms and
absent (with the entry evicted) at 600000 ms. -/
theorem getCachedData_ttl_witness :
    getCachedData 599999 (setCachedData 0 (7 : Int)) = (some 7, some (7, 0)) ∧
    getCachedData 600000 (setCachedData 0 (7 : Int)) = (none, none) :=
  ⟨(getCachedData_ttl 7 0 599999).1 (by decide),
    (getCachedData_ttl 7 0 600000).2 (by decide)⟩

/-- C9: the three components of `fetchGeneDetails`'s result are either all
null or all non-null, and in the non-null case the initial range lies
inside the bounds: `bounds.min = range.start ≤ range.end ≤ bounds.max`. -/
theorem fetchGeneDetails_all_or_nothing (outcome : DetailOutcome) :
    fetchGeneDetails outcome = nullDetailResult ∨
    ∃ d b r, fetchGeneDetails outcome = ⟨some d, some b, some r⟩ ∧
      b.min = r.start ∧ r.start ≤ r.stop ∧ r.stop ≤ b.max := by
  cases outcome with
  | notOk => exact Or.inl rfl
  | exn => exact Or.inl rfl
  | ok detail =>
    cases detail with
    | none => exact Or.inl rfl
    | some d =>
      obtain ⟨gi⟩ := d
      cases gi with
      | none => exact Or.inl rfl
      | some l =>
        cases l with
        | nil => exact Or.inl rfl
        | cons info rest =>
          refine Or.inr ⟨⟨some (info :: rest)⟩,
            ⟨max info.chrstart info.chrstop, min info.chrstart info.chrstop⟩,
            ⟨min info.chrstart info.chrstop,
              if max info.chrstart info.chrstop - min info.chrstart info.chrstop > 10000
              then min info.chrstart info.chrstop + 10000
              else max info.chrstart info.chrstop⟩,
            rfl, rfl, ?_, ?_⟩
          · by_cases h : max info.chrstart info.chrstop - min info.chrstart info.chrstop > 10000 <;>
              simp only [h, if_true, if_false, ite_true, ite_false] <;> omega
          · by_cases h : max info.chrstart info.chrstop - min info.chrstart info.chrstop > 10000 <;>
              simp only [h, if_true, if_false, ite_true, ite_false] <;> omega

/-- C10: `fetchGeneSequence` is total in the embedding — every upstream
outcome, including a thrown exception, is mapped to a returned value — and
the `actualRange` of the result always equals the requested `{start, end}`
exactly. -/
theorem fetchGeneSequence_total_actualRange (chrom genomeId : String)
    (start stop : Int) (upstream : SeqQuery → SeqOutcome) :
    (fetchGeneSequence chrom start stop genomeId upstream).actualRange =
      ⟨start, stop⟩ := by
  unfold fetchGeneSequence
  cases upstream (buildSeqQuery chrom start stop genomeId) with
  | exn => rfl
  | ok data =>
    dsimp only
    split <;> rfl

/-- Counterexample for C3: a response carrying no error and a non-empty
`dna` of the wrong length ("acgt", length 4, for the request
`[1000, 2000]` whose expected length is 1001) is returned as a success —
uppercased sequence, no error field — so a short sequence is not surfaced
as an error. -/
theorem fetchGeneSequence_truncation_counterexample :
    (1000 : Int) ≤ 2000 ∧
    fetchGeneSequence "chr1" 1000 2000 "hg38" (fun _ => .ok ⟨none, some "acgt"⟩) =
      ⟨"ACGT", ⟨1000, 2000⟩, none⟩ ∧
    (("ACGT".length : Int) ≠ 2000 - 1000 + 1) :=
  ⟨by decide, by decide, by decide⟩

/-- C3 amended: `fetchGeneSequence` surfaces an empty or missing `dna`
field through its error branch (empty sequence returned), but performs no
length validation: any non-empty `dna` with no service-reported error is
returned as a success (uppercased, no error field) even when its length
differs from `end - start + 1`. -/
theorem fetchGeneSequence_no_length_validation (chrom genomeId : String)
    (start stop : Int) (resp : SeqResponse) :
    (jsTruthy resp.dna = false →
      (fetchGeneSequence chrom start stop genomeId (fun _ => .ok resp)).sequence = "") ∧
    (∀ er : Option String, ∀ s : String, resp = ⟨er, some s⟩ → s ≠ "" →
      jsTruthy er = false →
      (fetchGeneSequence chrom start stop genomeId (fun _ => .ok resp)).error = none ∧
      (fetchGeneSequence chrom start stop genomeId (fun _ => .ok resp)).sequence =
        jsToUpper s) := by
  constructor
  · intro h
    simp only [fetchGeneSequence, h, Bool.not_false, Bool.or_true, if_true, ite_true]
  · intro er s hresp hs herr
    subst hresp
    have hd : jsTruthy (some s) = true := by simpa [jsTruthy] using hs
    simp only [fetchGeneSequence, herr, hd, Bool.not_true, Bool.or_false, if_false,
      ite_false, Option.getD_some]
    exact ⟨rfl, rfl⟩

/-- Witness for C3 amended: a missing `dna` field yields an empty sequence,
and the short sequence "ac" (length 2 ≠ 1001) is returned as an uppercased
success with no error. -/
theorem fetchGeneSequence_no_length_validation_witness :
    (fetchGeneSequence "chr1" 1000 2000 "hg38" (fun _ => .ok ⟨none, none⟩)).sequence = "" ∧
    ((fetchGeneSequence "chr1" 1000 2000 "hg38" (fun _ => .ok ⟨none, some "ac"⟩)).error = none ∧
      (fetchGeneSequence "chr1" 1000 2000 "hg38" (fun _ => .ok ⟨none, some "ac"⟩)).sequence =
        jsToUpper "ac") :=
  ⟨(fetchGeneSequence_no_length_validation "chr1" "hg38" 1000 2000 ⟨none, none⟩).1 rfl,
    (fetchGeneSequence_no_length_validation "chr1" "hg38" 1000 2000 ⟨none, some "ac"⟩).2
      none "ac" rfl (by decide) rfl⟩

/-- Counterexample for C4: when the response lacks the `dna` field and the
service reported no error, the returned `error` field is absent
(`data.error` is passed through verbatim and is `undefined`), so no
explicit error string accompanies the empty sequence. -/
theorem fetchGeneSequence_missing_dna_counterexample :
    fetchGeneSequence "chr1" 1000 2000 "hg38" (fun _ => .ok ⟨none, none⟩) =
      ⟨"", ⟨1000, 2000⟩, none⟩ := by decide

/-- C4 amended: on a service-reported error or a missing/empty `dna` field,
`fetchGeneSequence` does not throw and returns an empty sequence with its
`error` field equal to the service-reported error verbatim — an explicit
string when the service reported one, but absent when only the `dna` field
is missing; a thrown exception likewise returns an empty sequence with a
fixed internal-error string. -/
theorem fetchGeneSequence_error_branch (chrom genomeId : String)
    (start stop : Int) (resp : SeqResponse)
    (h : (jsTruthy resp.error || !jsTruthy resp.dna) = true) :
    fetchGeneSequence chrom start stop genomeId (fun _ => .ok resp) =
      ⟨"", ⟨start, stop⟩, resp.error⟩ ∧
    fetchGeneSequence chrom start stop genomeId (fun _ => .exn) =
      ⟨"", ⟨start, stop⟩, some "Internal error in fetch gene sequence"⟩ := by
  constructor
  · simp only [fetchGeneSequence, h, if_true, ite_true]
  · rfl

/-- Witness for C4 amended: a service-reported error string is passed
through with an empty sequence, and the exception path returns the fixed
internal-error string. -/
theorem fetchGeneSequence_error_branch_witness :
    fetchGeneSequence "chr1" 5 9 "hg38" (fun _ => .ok ⟨some "snp not found", none⟩) =
      ⟨"", ⟨5, 9⟩, some "snp not found"⟩ ∧
    fetchGeneSequence "chr1" 5 9 "hg38" (fun _ => .exn) =
      ⟨"", ⟨5, 9⟩, some "Internal error in fetch gene sequence"⟩ :=
  fetchGeneSequence_error_branch "chr1" "hg38" 5 9 ⟨some "snp not found", none⟩ (by decide)

/-- Counterexample for C6: the no-genomic-info outcome and both
network-failure outcomes (non-ok response, thrown exception) all return the
identical all-null triple, so the caller cannot distinguish "no data" from
a network failure by the returned value. -/
theorem fetchGeneDetails_indistinguishable_counterexample :
    fetchGeneDetails (.ok (some ⟨some []⟩)) = nullDetailResult ∧
    fetchGeneDetails .notOk = fetchGeneDetails (.ok (some ⟨some []⟩)) ∧
    fetchGeneDetails .exn = fetchGeneDetails (.ok (some ⟨some []⟩)) :=
  ⟨rfl, rfl, rfl⟩

/-- C6 amended: when the catalog has no genomic-info record (field absent
or empty), `fetchGeneDetails` returns the all-null result without
throwing; however, a network failure (non-ok response or thrown exception)
yields the identical all-null value, so the two outcomes are not
distinguishable by the caller from the returned value. -/
theorem fetchGeneDetails_noData_null (d : GeneDetail)
    (h : d.genomicinfo = none ∨ d.genomicinfo = some []) :
    fetchGeneDetails (.ok (some d)) = nullDetailResult ∧
    fetchGeneDetails .notOk = fetchGeneDetails (.ok (some d)) ∧
    fetchGeneDetails .exn = fetchGeneDetails (.ok (some d)) := by
  obtain ⟨gi⟩ := d
  rcases h with h | h <;> cases h <;> exact ⟨rfl, rfl, rfl⟩

/-- Witness for C6 amended: applied to a detail record whose
`genomicinfo` field is absent. -/
theorem fetchGeneDetails_noData_null_witness :
    fetchGeneDetails (.ok (some ⟨none⟩)) = nullDetailResult ∧
    fetchGeneDetails .notOk = fetchGeneDetails (.ok (some ⟨none⟩)) ∧
    fetchGeneDetails .exn = fetchGeneDetails (.ok (some ⟨none⟩)) :=
  fetchGeneDetails_noData_null ⟨none⟩ (Or.inl rfl)

/-- The sort comparator relation is transitive. -/
theorem chromCompareLe_trans (a b c : ChromosomeData) :
    chromCompareLe a b = true → chromCompareLe b c = true →
    chromCompareLe a c = true := by
  unfold chromCompareLe
  cases isDigits (chromKey a) <;> cases isDigits (chromKey b) <;>
    cases isDigits (chromKey c) <;> simp
  · exact fun h1 h2 => le_trans h1 h2
  · exact fun h1 h2 => Nat.le_trans h1 h2

/-- The sort comparator relation is total. -/
theorem chromCompareLe_total (a b : ChromosomeData) :
    (chromCompareLe a b || chromCompareLe b a) = true := by
  unfold chromCompareLe
  cases isDigits (chromKey a) <;> cases isDigits (chromKey b) <;> simp
  · exact le_total _ _
  · exact Nat.le_total (jsNumber (chromKey a)) (jsNumber (chromKey b))

/-- The Boolean comparator agrees with the display ordering it realizes. -/
theorem chromCompareLe_iff_displayOrder (a b : ChromosomeData) :
    chromCompareLe a b = true ↔ displayOrder a b := by
  unfold chromCompareLe displayOrder
  cases isDigits (chromKey a) <;> cases isDigits (chromKey b) <;> simp

/-- C8: `getGenomeChromosomes` keeps exactly the chromosomes whose names
contain no underscore, no "random" and no "Un" (every survivor passes
`keepChromName`, and the output is a permutation of the filtered input),
and the output is pairwise ordered by `displayOrder`: numerically named
chromosomes first in ascending numeric order, then the non-numeric names
in lexical order. -/
theorem getGenomeChromosomes_filter_sort (chroms : List (String × Int)) :
    ((getGenomeChromosomes chroms).all fun c => keepChromName c.name) = true ∧
    List.Perm (getGenomeChromosomes chroms)
      ((chroms.filter fun p => keepChromName p.1).map
        fun p => (⟨p.1, p.2⟩ : ChromosomeData)) ∧
    List.Pairwise displayOrder (getGenomeChromosomes chroms) := by
  unfold getGenomeChromosomes
  have hperm := List.mergeSort_perm
    ((chroms.filter fun p => keepChromName p.1).map
      fun p => (⟨p.1, p.2⟩ : ChromosomeData)) chromCompareLe
  refine ⟨?_, hperm, ?_⟩
  · rw [List.all_eq_true]
    intro c hc
    have hc2 := hperm.mem_iff.mp hc
    obtain ⟨p, hpmem, hpc⟩ := List.mem_map.mp hc2
    have hkeep := (List.mem_filter.mp hpmem).2
    rw [← hpc]
    exact hkeep
  · have hsorted := List.sorted_mergeSort chromCompareLe_trans chromCompareLe_total
      ((chroms.filter fun p => keepChromName p.1).map
        fun p => (⟨p.1, p.2⟩ : ChromosomeData))
    exact hsorted.imp fun h => (chromCompareLe_iff_displayOrder _ _).mp h

end Vareon
